import Mathlib

/-!
Shallow embedding of `src/bin/fetch_reddit.py`.

The script reads one URL argument and a handful of environment variables,
fetches a Reddit submission through an external client, renders each comment
of the flattened comment list to a text block, and prints one JSON line.
We embed the pure computation performed by the script: Python truthiness,
the lenient `int()` parse of the comment-limit variable, the render loop
with its early break, payload assembly, and `json.dumps` serialization.
The external network client is a parameter of the embedded `main_run`.
-/

/-- Truthiness of a Python string: `""` is falsy, everything else truthy. -/
def pyTruthyStr (s : String) : Bool := !(s == "")

/-- Truthiness of an optional Python string (`None` is falsy). -/
def pyTruthyOpt : Option String → Bool
  | none => false
  | some s => pyTruthyStr s

/-- Python `x or ""` for an optional string `x` (used for title/selftext). -/
def pyOrEmpty : Option String → String
  | none => ""
  | some s => if s == "" then "" else s

/-- ASCII whitespace stripped by Python `int(str)`. -/
def isPySpace (c : Char) : Bool :=
  c == ' ' || c == '\t' || c == '\n' || c == '\r' || c.toNat == 11 || c.toNat == 12

/-- Decimal digit test. -/
def isDigitChar (c : Char) : Bool := '0' ≤ c && c ≤ '9'

/-- Numeric value of a decimal digit character. -/
def digitValue (c : Char) : Nat := c.toNat - 48

/-- Continuation of Python's integer-literal grammar `digit (["_"] digit)*`:
an underscore must be followed by a digit. -/
def parseDigitsRest (acc : Nat) : List Char → Option Nat
  | [] => some acc
  | '_' :: c :: rest =>
      if isDigitChar c then parseDigitsRest (acc * 10 + digitValue c) rest else none
  | c :: rest =>
      if isDigitChar c then parseDigitsRest (acc * 10 + digitValue c) rest else none

/-- Python digit-part: nonempty, starts with a digit, underscores only between digits. -/
def parseDigits : List Char → Option Nat
  | [] => none
  | c :: rest => if isDigitChar c then parseDigitsRest (digitValue c) rest else none

/-- Strip leading and trailing whitespace, as Python `int(str)` does. -/
def stripPySpaces (cs : List Char) : List Char :=
  ((cs.dropWhile isPySpace).reverse.dropWhile isPySpace).reverse

/-- Python `int(s)` on a string: optional sign around a digit-part, `none` on
`ValueError`. -/
def pyIntParse (s : String) : Option Int :=
  match stripPySpaces s.data with
  | '+' :: rest => (parseDigits rest).map (fun n => (n : Int))
  | '-' :: rest => (parseDigits rest).map (fun n => -(n : Int))
  | cs => (parseDigits cs).map (fun n => (n : Int))

/-- Lines 23-29 of the script: `comment_limit` stays `None` when the variable
is unset or falsy, and when `int()` raises `ValueError`. -/
def parseCommentLimit : Option String → Option Int
  | none => none
  | some s => if pyTruthyStr s then pyIntParse s else none

/-- One node of the flattened comment sequence, with the optional attributes
the script probes via `getattr`. -/
structure CommentNode where
  author : Option String
  score : Option Int
  depth : Option Nat
  body : Option String

/-- The submission fields the script reads, plus its flattened comment list. -/
structure SubmissionData where
  title : Option String
  selftext : Option String
  permalink : String
  score : Int
  subreddit : String
  author : Option String
  num_comments : Int
  commentsList : List CommentNode

/-- Little-endian-free decimal digits of a natural number; `fuel` bounds the
recursion and `n + 1` is always enough. -/
def natDigitsAux : Nat → Nat → List Char
  | 0, _ => []
  | fuel + 1, n =>
      if n < 10 then [Char.ofNat (48 + n)]
      else natDigitsAux fuel (n / 10) ++ [Char.ofNat (48 + n % 10)]

/-- Decimal digits of a natural number, most significant first. -/
def natDigits (n : Nat) : List Char := natDigitsAux (n + 1) n

/-- Python `str(int)`: decimal digits with a leading minus sign if negative. -/
def intRepr (n : Int) : List Char :=
  if n < 0 then '-' :: natDigits n.natAbs else natDigits n.toNat

/-- String form of `intRepr`. -/
def intReprStr (n : Int) : String := String.mk (intRepr n)

/-- Python `" ".join(parts)`. -/
def joinSpace : List String → String
  | [] => ""
  | [s] => s
  | s :: t :: rest => s ++ " " ++ joinSpace (t :: rest)

/-- Python `s * n` string repetition. -/
def strRepeat (s : String) : Nat → String
  | 0 => ""
  | n + 1 => s ++ strRepeat s n

/-- Line 71: `f"u/{comment.author}" if comment.author else "[deleted]"`. -/
def authorLabel (c : CommentNode) : String :=
  match c.author with
  | some a => "u/" ++ a
  | none => "[deleted]"

/-- Lines 72-75: the header parts list, the score part appended only when a
score attribute is present. -/
def headerParts (c : CommentNode) : List String :=
  match c.score with
  | some s => [authorLabel c, "(score: " ++ intReprStr s ++ ")"]
  | none => [authorLabel c]

/-- Line 78: `header = " ".join(header_parts)`. -/
def commentHeader (c : CommentNode) : String := joinSpace (headerParts c)

/-- Line 77: `indent = "  " * getattr(comment, "depth", 0)`. -/
def commentIndent (c : CommentNode) : String := strRepeat "  " (c.depth.getD 0)

/-- Lines 70-80: `render_comment` builds `f"{indent}{header}\n{indent}{body}"`
with `body = getattr(comment, "body", "")`. -/
def render_comment (c : CommentNode) : String :=
  commentIndent c ++ commentHeader c ++ "\n" ++ commentIndent c ++ c.body.getD ""

/-- Line 53's condition `comment_limit and len(comments) >= comment_limit`:
`None` and `0` are falsy, otherwise compare the length. -/
def limitBreak : Option Int → Nat → Bool
  | none, _ => false
  | some n, len => if n = 0 then false else decide (n ≤ (len : Int))

/-- Lines 50-54: the render loop, carrying the accumulated `comments` list;
a comment with falsy body is skipped, otherwise it is rendered and appended,
and the loop breaks once `limitBreak` fires. -/
def collectLoop (limit : Option Int) (acc : List String) : List CommentNode → List String
  | [] => acc
  | c :: rest =>
      if pyTruthyOpt c.body then
        let acc2 := acc ++ [render_comment c]
        if limitBreak limit acc2.length then acc2 else collectLoop limit acc2 rest
      else collectLoop limit acc rest

/-- The `comments` list produced by the loop, starting from the empty list. -/
def collectComments (limit : Option Int) (cs : List CommentNode) : List String :=
  collectLoop limit [] cs

/-- First demo comment from the spec's end-to-end example. -/
def commentDemo1 : CommentNode :=
  { author := some "alice", score := some 5, depth := some 0, body := some "first" }

/-- Second demo comment from the spec's end-to-end example. -/
def commentDemo2 : CommentNode :=
  { author := none, score := none, depth := some 1, body := some "reply" }

/-- A comment whose body is the empty string. -/
def commentDemoEmpty : CommentNode :=
  { author := some "bob", score := some 1, depth := some 0, body := some "" }

/-- Spec end-to-end example: no limit yields both rendered comments. -/
theorem demo_no_limit :
    collectComments none [commentDemo1, commentDemo2] =
      ["u/alice (score: 5)\nfirst", "  [deleted]\n  reply"] := by decide

/-- Spec end-to-end example: limit 1 keeps only the first rendered comment. -/
theorem demo_limit_one :
    collectComments (some 1) [commentDemo1, commentDemo2] =
      ["u/alice (score: 5)\nfirst"] := by decide

/-- JSON values, as produced by `json.dumps` on the payload dictionary. -/
inductive JVal where
  | jnull : JVal
  | jint : Int → JVal
  | jstr : String → JVal
  | jarr : List JVal → JVal
  | jobj : List (String × JVal) → JVal

/-- The four lowercase hex digits of `n` modulo 2^16, as in `\uXXXX` escapes. -/
def hexDigitChar (n : Nat) : Char :=
  if n < 10 then Char.ofNat (48 + n) else Char.ofNat (87 + n)

/-- Four-digit hex rendering used by JSON unicode escapes. -/
def hex4 (n : Nat) : List Char :=
  [hexDigitChar (n / 4096 % 16), hexDigitChar (n / 256 % 16),
   hexDigitChar (n / 16 % 16), hexDigitChar (n % 16)]

/-- `json.dumps` escaping of one character with `ensure_ascii` (the default):
quote, backslash and the named control characters get two-character escapes,
other characters outside `0x20..0x7E` get `\uXXXX` escapes (a surrogate pair
above `0xFFFF`), and the printable ASCII range is emitted verbatim. -/
def escCharL (c : Char) : List Char :=
  if c = '"' then ['\\', '"']
  else if c = '\\' then ['\\', '\\']
  else if c = '\n' then ['\\', 'n']
  else if c = '\r' then ['\\', 'r']
  else if c = '\t' then ['\\', 't']
  else if c.toNat = 8 then ['\\', 'b']
  else if c.toNat = 12 then ['\\', 'f']
  else if 32 ≤ c.toNat ∧ c.toNat ≤ 126 then [c]
  else if c.toNat < 65536 then '\\' :: 'u' :: hex4 c.toNat
  else '\\' :: 'u' :: hex4 (55296 + (c.toNat - 65536) / 1024) ++
       '\\' :: 'u' :: hex4 (56320 + (c.toNat - 65536) % 1024)

/-- Concatenated escapes of a character list. -/
def escListL : List Char → List Char
  | [] => []
  | c :: rest => escCharL c ++ escListL rest

/-- A JSON string literal: quote, escaped contents, quote. -/
def escStringL (s : String) : List Char := '"' :: escListL s.data ++ ['"']

mutual

/-- `json.dumps` with its default separators, as a character list. -/
def serializeJ : JVal → List Char
  | JVal.jnull => ['n', 'u', 'l', 'l']
  | JVal.jint n => intRepr n
  | JVal.jstr s => escStringL s
  | JVal.jarr xs => '[' :: serializeItems xs ++ [']']
  | JVal.jobj fs => Char.ofNat 123 :: serializeFields fs ++ [Char.ofNat 125]

/-- Array items joined by `", "`. -/
def serializeItems : List JVal → List Char
  | [] => []
  | [v] => serializeJ v
  | v :: w :: rest => serializeJ v ++ ([',', ' '] ++ serializeItems (w :: rest))

/-- Object fields `"key": value` joined by `", "`. -/
def serializeFields : List (String × JVal) → List Char
  | [] => []
  | [(k, v)] => escStringL k ++ ([':', ' '] ++ serializeJ v)
  | (k, v) :: f :: rest =>
      escStringL k ++ ([':', ' '] ++ (serializeJ v ++ ([',', ' '] ++ serializeFields (f :: rest))))

end

/-- Lines 56-65: the payload dictionary, in insertion order. -/
def buildPayload (sd : SubmissionData) (comments : List String) : JVal :=
  JVal.jobj
    [("title", JVal.jstr (pyOrEmpty sd.title)),
     ("selftext", JVal.jstr (pyOrEmpty sd.selftext)),
     ("comments", JVal.jarr (comments.map JVal.jstr)),
     ("permalink", JVal.jstr sd.permalink),
     ("score", JVal.jint sd.score),
     ("subreddit", JVal.jstr sd.subreddit),
     ("author", match sd.author with | some a => JVal.jstr a | none => JVal.jnull),
     ("comment_count", JVal.jint sd.num_comments)]

/-- Key list of a JSON object. -/
def jsonKeys : JVal → List String
  | JVal.jobj fs => fs.map Prod.fst
  | _ => []

/-- The environment variables the script reads. -/
structure ProcEnv where
  client_id : Option String
  client_secret : Option String
  user_agent : Option String
  comment_sort : Option String
  comment_limit : Option String

/-- Observable outcome of one run: exit status and the bytes on stdout. -/
structure ProcResult where
  exitCode : Nat
  stdout : String
deriving DecidableEq

/-- Lines 13-67: the whole `main`. `argv` includes the program name, `fetch`
stands for the external client (url, user agent, comment sort → submission
or failure); an uncaught client exception exits the interpreter with
status 1 having printed nothing to stdout. -/
def main_run (argv : List String) (env : ProcEnv)
    (fetch : String → String → String → Except Unit SubmissionData) : ProcResult :=
  if argv.length < 2 then ⟨1, ""⟩
  else if !pyTruthyOpt env.client_id || !pyTruthyOpt env.client_secret then ⟨1, ""⟩
  else
    match fetch (argv.getD 1 "") (env.user_agent.getD "twx-reddit/0.1")
        (env.comment_sort.getD "confidence") with
    | Except.error _ => ⟨1, ""⟩
    | Except.ok sd =>
        ⟨0, String.mk (serializeJ (buildPayload sd
              (collectComments (parseCommentLimit env.comment_limit) sd.commentsList))
            ++ ['\n'])⟩

/-- The payload `main` serializes on the success path. -/
def mainPayload (env : ProcEnv) (sd : SubmissionData) : JVal :=
  buildPayload sd (collectComments (parseCommentLimit env.comment_limit) sd.commentsList)

/-- Non-membership distributes over list append. -/
theorem nmem_append {α : Type} {a : α} {l1 l2 : List α}
    (h1 : a ∉ l1) (h2 : a ∉ l2) : a ∉ l1 ++ l2 := by
  simp only [List.mem_append, not_or]
  exact ⟨h1, h2⟩

/-- Non-membership distributes over cons. -/
theorem nmem_cons {α : Type} {a b : α} {l : List α}
    (h1 : a ≠ b) (h2 : a ∉ l) : a ∉ b :: l := by
  simp only [List.mem_cons, not_or]
  exact ⟨h1, h2⟩

/-- Hex digit characters are never the newline character. -/
theorem hexDigitChar_ne_nl {m : Nat} (h : m < 16) : '\n' ≠ hexDigitChar m := by
  interval_cases m <;> decide

/-- The newline character never occurs in a `\uXXXX` escape body. -/
theorem nl_not_mem_hex4 (n : Nat) : '\n' ∉ hex4 n := by
  have h16 : (0 : Nat) < 16 := by omega
  exact nmem_cons (hexDigitChar_ne_nl (Nat.mod_lt _ h16))
    (nmem_cons (hexDigitChar_ne_nl (Nat.mod_lt _ h16))
      (nmem_cons (hexDigitChar_ne_nl (Nat.mod_lt _ h16))
        (nmem_cons (hexDigitChar_ne_nl (Nat.mod_lt _ h16)) (by decide))))

/-- The JSON escape of any character contains no newline. -/
theorem nl_not_mem_escCharL (c : Char) : '\n' ∉ escCharL c := by
  unfold escCharL
  split_ifs with h1 h2 h3 h4 h5 h6 h7 h8 h9
  · decide
  · decide
  · decide
  · decide
  · decide
  · decide
  · decide
  · have h10 : ('\n').toNat = 10 := rfl
    exact nmem_cons (fun hc => by rw [hc] at h10; omega) (by decide)
  · exact nmem_cons (by decide) (nmem_cons (by decide) (nl_not_mem_hex4 _))
  · exact nmem_cons (by decide)
      (nmem_cons (by decide)
        (nmem_append (nl_not_mem_hex4 _)
          (nmem_cons (by decide) (nmem_cons (by decide) (nl_not_mem_hex4 _)))))

/-- The escaped form of any character list contains no newline. -/
theorem nl_not_mem_escListL : ∀ cs : List Char, '\n' ∉ escListL cs
  | [] => by simp [escListL]
  | c :: rest => by
      simp only [escListL]
      exact nmem_append (nl_not_mem_escCharL c) (nl_not_mem_escListL rest)

/-- A serialized JSON string literal contains no newline. -/
theorem nl_not_mem_escStringL (s : String) : '\n' ∉ escStringL s := by
  unfold escStringL
  exact nmem_cons (by decide) (nmem_append (nl_not_mem_escListL s.data) (by decide))

/-- A decimal digit character is never the newline character. -/
theorem digitChar_ne_nl {m : Nat} (h : m < 10) : '\n' ≠ Char.ofNat (48 + m) := by
  interval_cases m <;> decide

/-- Decimal digit runs contain no newline. -/
theorem nl_not_mem_natDigitsAux : ∀ fuel n : Nat, '\n' ∉ natDigitsAux fuel n
  | 0, _ => by simp [natDigitsAux]
  | fuel + 1, n => by
      unfold natDigitsAux
      split_ifs with h
      · exact nmem_cons (digitChar_ne_nl h) (by decide)
      · exact nmem_append (nl_not_mem_natDigitsAux fuel (n / 10))
          (nmem_cons (digitChar_ne_nl (Nat.mod_lt _ (by omega))) (by decide))

/-- The decimal rendering of an integer contains no newline. -/
theorem nl_not_mem_intRepr (n : Int) : '\n' ∉ intRepr n := by
  unfold intRepr
  split_ifs with h
  · exact nmem_cons (by decide) (nl_not_mem_natDigitsAux _ _)
  · exact nl_not_mem_natDigitsAux _ _

/-- Serialized string arrays contain no newline. -/
theorem nl_not_mem_serializeItems_jstr :
    ∀ cms : List String, '\n' ∉ serializeItems (cms.map JVal.jstr)
  | [] => by simp [serializeItems]
  | [s] => by
      simp only [List.map_cons, List.map_nil, serializeItems, serializeJ]
      exact nl_not_mem_escStringL s
  | s :: t :: rest => by
      simp only [List.map_cons, serializeItems, serializeJ]
      exact nmem_append (nl_not_mem_escStringL s)
        (nmem_append (by decide) (nl_not_mem_serializeItems_jstr (t :: rest)))

/-- Serialized object fields contain no newline when no serialized value does. -/
theorem nl_not_mem_serializeFields :
    ∀ fs : List (String × JVal), (∀ p ∈ fs, '\n' ∉ serializeJ p.2) → '\n' ∉ serializeFields fs
  | [], _ => by simp [serializeFields]
  | [(k, v)], h => by
      simp only [serializeFields]
      exact nmem_append (nl_not_mem_escStringL k)
        (nmem_append (by decide) (h (k, v) (by simp)))
  | (k, v) :: f :: rest, h => by
      simp only [serializeFields]
      exact nmem_append (nl_not_mem_escStringL k)
        (nmem_append (by decide)
          (nmem_append (h (k, v) (by simp))
            (nmem_append (by decide)
              (nl_not_mem_serializeFields (f :: rest)
                (fun p hp => h p (List.mem_cons_of_mem _ hp))))))

/-- The serialized payload is newline-free: every comment block's newlines are
escaped by the string serializer. -/
theorem nl_not_mem_serialize_buildPayload (sd : SubmissionData) (cms : List String) :
    '\n' ∉ serializeJ (buildPayload sd cms) := by
  unfold buildPayload
  simp only [serializeJ]
  refine nmem_cons (by decide) (nmem_append (nl_not_mem_serializeFields _ ?_) (by decide))
  intro p hp
  simp only [List.mem_cons, List.mem_singleton] at hp
  rcases hp with rfl | rfl | rfl | rfl | rfl | rfl | rfl | rfl | h
  · exact nl_not_mem_escStringL _
  · exact nl_not_mem_escStringL _
  · simp only [serializeJ]
    exact nmem_cons (by decide)
      (nmem_append (nl_not_mem_serializeItems_jstr cms) (by decide))
  · exact nl_not_mem_escStringL _
  · exact nl_not_mem_intRepr _
  · exact nl_not_mem_escStringL _
  · cases sd.author with
    | some a => simp only [serializeJ]; exact nl_not_mem_escStringL a
    | none => simp only [serializeJ]; decide
  · exact nl_not_mem_intRepr _
  · exact absurd h (List.not_mem_nil _)

/-- The break test never fires without a configured limit. -/
theorem limitBreak_none (len : Nat) : limitBreak none len = false := rfl

/-- The break test never fires with limit `0`: Python treats `0` as falsy. -/
theorem limitBreak_zero (len : Nat) : limitBreak (some 0) len = false := by
  simp [limitBreak]

/-- Without a limit, the loop appends a rendering of exactly the comments
with a truthy body, in order. -/
theorem collectLoop_none :
    ∀ (cs : List CommentNode) (acc : List String),
      collectLoop none acc cs =
        acc ++ (cs.filter (fun c => pyTruthyOpt c.body)).map render_comment
  | [], acc => by simp [collectLoop]
  | c :: rest, acc => by
      cases hb : pyTruthyOpt c.body
      · simp only [collectLoop, hb, Bool.false_eq_true, if_false]
        rw [collectLoop_none rest acc]
        simp [List.filter_cons, hb]
      · simp only [collectLoop, hb, if_true, limitBreak_none, Bool.false_eq_true, if_false]
        rw [collectLoop_none rest (acc ++ [render_comment c])]
        simp [List.filter_cons, hb]

/-- Limit `0` behaves exactly like no limit inside the loop. -/
theorem collectLoop_zero :
    ∀ (cs : List CommentNode) (acc : List String),
      collectLoop (some 0) acc cs = collectLoop none acc cs
  | [], acc => by simp [collectLoop]
  | c :: rest, acc => by
      cases hb : pyTruthyOpt c.body
      · simp only [collectLoop, hb, Bool.false_eq_true, if_false]
        exact collectLoop_zero rest acc
      · simp only [collectLoop, hb, if_true, limitBreak_none, limitBreak_zero,
          Bool.false_eq_true, if_false]
        exact collectLoop_zero rest (acc ++ [render_comment c])

/-- With a positive limit the loop never grows the list beyond the limit,
provided it starts below it. -/
theorem collectLoop_pos_length {n : Int} (hn : 0 < n) :
    ∀ (cs : List CommentNode) (acc : List String),
      (acc.length : Int) < n → ((collectLoop (some n) acc cs).length : Int) ≤ n
  | [], acc, ha => by
      simpa [collectLoop] using le_of_lt ha
  | c :: rest, acc, ha => by
      cases hb : pyTruthyOpt c.body
      · simp only [collectLoop, hb, Bool.false_eq_true, if_false]
        exact collectLoop_pos_length hn rest acc ha
      · simp only [collectLoop, hb, if_true]
        by_cases hbr : limitBreak (some n) (acc ++ [render_comment c]).length = true
        · rw [if_pos hbr]
          simp only [List.length_append, List.length_singleton]
          push_cast
          omega
        · rw [if_neg hbr]
          apply collectLoop_pos_length hn rest
          simp only [limitBreak, if_neg (by omega : ¬ n = 0),
            decide_eq_true_eq] at hbr
          simp only [List.length_append, List.length_singleton] at hbr ⊢
          push_cast at hbr ⊢
          omega

/-- With a negative limit the break fires on the very first rendered comment:
the loop appends at most the first eligible rendering. -/
theorem collectLoop_neg {n : Int} (hn : n < 0) :
    ∀ (cs : List CommentNode) (acc : List String),
      collectLoop (some n) acc cs =
        acc ++ ((cs.filter (fun c => pyTruthyOpt c.body)).map render_comment).take 1
  | [], acc => by simp [collectLoop]
  | c :: rest, acc => by
      cases hb : pyTruthyOpt c.body
      · simp only [collectLoop, hb, Bool.false_eq_true, if_false]
        rw [collectLoop_neg hn rest acc]
        simp [List.filter_cons, hb]
      · have hbr : limitBreak (some n) ((acc ++ [render_comment c]).length) = true := by
          simp only [limitBreak, if_neg (by omega : ¬ n = 0), decide_eq_true_eq]
          have : (0 : Int) ≤ ((acc ++ [render_comment c]).length : Int) := by positivity
          omega
        simp only [collectLoop, hb, if_true, hbr]
        simp [List.filter_cons, hb, List.take]

/-- Dropping a comment with a falsy body anywhere in the list leaves the loop's
output unchanged, whatever the limit and accumulator. -/
theorem collectLoop_skip (limit : Option Int) (c : CommentNode) (l2 : List CommentNode)
    (hb : pyTruthyOpt c.body = false) :
    ∀ (l1 : List CommentNode) (acc : List String),
      collectLoop limit acc (l1 ++ c :: l2) = collectLoop limit acc (l1 ++ l2)
  | [], acc => by
      simp only [List.nil_append, collectLoop, hb, Bool.false_eq_true, if_false]
  | d :: rest, acc => by
      cases hd : pyTruthyOpt d.body
      · simp only [List.cons_append, collectLoop, hd, Bool.false_eq_true, if_false]
        exact collectLoop_skip limit c l2 hb rest acc
      · simp only [List.cons_append, collectLoop, hd, if_true]
        split_ifs with h
        · rfl
        · exact collectLoop_skip limit c l2 hb rest (acc ++ [render_comment d])

/-- A run of `n` space characters. -/
def spacesStr (n : Nat) : String := String.mk (List.replicate n ' ')

/-- `"  " * d` is exactly `2 * d` space characters. -/
theorem strRepeat_two_spaces : ∀ d : Nat, strRepeat "  " d = spacesStr (2 * d)
  | 0 => by decide
  | d + 1 => by
      apply String.ext
      have h2 : 2 * (d + 1) = 2 * d + 1 + 1 := by omega
      rw [strRepeat, strRepeat_two_spaces d]
      simp only [String.data_append, spacesStr, h2, List.replicate_succ]
      rfl

/-- Demo environment with both credentials present. -/
def envDemo : ProcEnv :=
  { client_id := some "id", client_secret := some "secret",
    user_agent := none, comment_sort := none, comment_limit := none }

/-- Demo submission carrying the two demo comments. -/
def sdDemo : SubmissionData :=
  { title := some "Hi", selftext := some "", permalink := "/r/demo", score := 3,
    subreddit := "demo", author := some "op", num_comments := 2,
    commentsList := [commentDemo1, commentDemo2] }

/-- Demo external client that always succeeds with `sdDemo`. -/
def fetchDemo : String → String → String → Except Unit SubmissionData :=
  fun _ _ _ => Except.ok sdDemo

/-- C3: the header of a rendered comment is exactly `"[deleted]"` for an absent
author and `"u/" ++ name` otherwise, with `" (score: s)"` appended exactly when
a score is available — in particular, no score means no suffix and no trailing
whitespace artifact, and rendering is a total function. -/
theorem header_rendering (c : CommentNode) :
    commentHeader c =
      (match c.author with
        | some a => "u/" ++ a
        | none => "[deleted]") ++
      (match c.score with
        | some s => " (score: " ++ intReprStr s ++ ")"
        | none => "") := by
  have hd : (" " : String) ++ "(score: " = " (score: " := by decide
  obtain ⟨au, sc, d, b⟩ := c
  rcases au with _ | a <;> rcases sc with _ | s
  · show ("[deleted]" : String) = "[deleted]" ++ ""
    decide
  · show ("[deleted]" ++ " ") ++ ("(score: " ++ intReprStr s ++ ")") =
      "[deleted]" ++ (" (score: " ++ intReprStr s ++ ")")
    rw [String.append_assoc, ← hd]
    simp only [String.append_assoc]
  · show "u/" ++ a = ("u/" ++ a) ++ ""
    apply String.ext
    simp [String.data_append]
  · show (("u/" ++ a) ++ " ") ++ ("(score: " ++ intReprStr s ++ ")") =
      ("u/" ++ a) ++ (" (score: " ++ intReprStr s ++ ")")
    rw [String.append_assoc, ← hd]
    simp only [String.append_assoc]

/-- C4: a comment at depth `d` renders as exactly `2*d` spaces, the header, a
newline, then `2*d` spaces and the body verbatim; a missing depth attribute
defaults to `0` and a missing body to the empty string. -/
theorem indentation_rule (c : CommentNode) :
    render_comment c =
      spacesStr (2 * c.depth.getD 0) ++ commentHeader c ++ "\n" ++
        spacesStr (2 * c.depth.getD 0) ++ c.body.getD "" := by
  unfold render_comment commentIndent
  rw [strRepeat_two_spaces]

/-- C5: a comment whose body is absent or empty contributes no entry to the
output list, whatever the configured limit. -/
theorem empty_body_excluded (limit : Option Int) (l1 l2 : List CommentNode)
    (c : CommentNode) (hb : pyTruthyOpt c.body = false) :
    collectComments limit (l1 ++ c :: l2) = collectComments limit (l1 ++ l2) :=
  collectLoop_skip limit c l2 hb l1 []

/-- Witness for `empty_body_excluded` at a concrete comment list and limit. -/
theorem empty_body_excluded_witness :
    pyTruthyOpt commentDemoEmpty.body = false ∧
    collectComments (some 5) [commentDemo1, commentDemoEmpty, commentDemo2] =
      collectComments (some 5) [commentDemo1, commentDemo2] :=
  ⟨by decide,
   empty_body_excluded (some 5) [commentDemo1] [commentDemo2] commentDemoEmpty (by decide)⟩

/-- C1: with a positive configured limit the output never holds more than
`limit` strings; with no limit it holds one string per comment with a truthy
body. -/
theorem comment_limit_invariant (limit : Option Int) (cs : List CommentNode) :
    (∀ n : Int, limit = some n → 0 < n →
        ((collectComments limit cs).length : Int) ≤ n) ∧
    (limit = none →
        (collectComments limit cs).length =
          (cs.filter (fun c => pyTruthyOpt c.body)).length) := by
  constructor
  · rintro n rfl hn
    exact collectLoop_pos_length hn cs [] (by simpa using hn)
  · rintro rfl
    rw [collectComments, collectLoop_none cs []]
    simp

/-- Witness for `comment_limit_invariant` at limit `1` and at no limit. -/
theorem comment_limit_invariant_witness :
    ((collectComments (some 1) [commentDemo1, commentDemo2]).length : Int) ≤ 1 ∧
    (collectComments none [commentDemo1, commentDemo2]).length =
      ([commentDemo1, commentDemo2].filter (fun c => pyTruthyOpt c.body)).length :=
  ⟨(comment_limit_invariant (some 1) [commentDemo1, commentDemo2]).1 1 rfl (by decide),
   (comment_limit_invariant none [commentDemo1, commentDemo2]).2 rfl⟩

/-- C10: a negative configured limit truncates the output to the first
rendered comment — the break fires as soon as one comment is appended. -/
theorem negative_limit_at_most_one (n : Int) (hn : n < 0) (cs : List CommentNode) :
    collectComments (some n) cs =
      ((cs.filter (fun c => pyTruthyOpt c.body)).map render_comment).take 1 ∧
    (collectComments (some n) cs).length ≤ 1 := by
  have h := collectLoop_neg hn cs []
  constructor
  · rw [collectComments, h, List.nil_append]
  · rw [collectComments, h, List.nil_append, List.length_take]
    exact Nat.min_le_left _ _

/-- Witness for `negative_limit_at_most_one` at limit `-1`. -/
theorem negative_limit_witness :
    (-1 : Int) < 0 ∧
    collectComments (some (-1)) [commentDemo1, commentDemo2] =
      (([commentDemo1, commentDemo2].filter (fun c => pyTruthyOpt c.body)).map
          render_comment).take 1 :=
  ⟨by decide,
   (negative_limit_at_most_one (-1) (by decide) [commentDemo1, commentDemo2]).1⟩

/-- `main_run` touches the comment-limit variable only through
`parseCommentLimit` and the loop it configures. -/
theorem main_run_limit_congr (argv : List String)
    (fetch : String → String → String → Except Unit SubmissionData)
    (e1 e2 : ProcEnv)
    (h1 : e1.client_id = e2.client_id) (h2 : e1.client_secret = e2.client_secret)
    (h3 : e1.user_agent = e2.user_agent) (h4 : e1.comment_sort = e2.comment_sort)
    (h5 : collectComments (parseCommentLimit e1.comment_limit) =
          collectComments (parseCommentLimit e2.comment_limit)) :
    main_run argv e1 fetch = main_run argv e2 fetch := by
  unfold main_run
  rw [h1, h2, h3, h4, h5]

/-- C6: a non-numeric comment-limit value is silently ignored — the program
behaves exactly as if the variable were unset, with no error raised. -/
theorem nonnumeric_limit_ignored (s : String) (hs : pyIntParse s = none)
    (argv : List String) (env : ProcEnv)
    (fetch : String → String → String → Except Unit SubmissionData) :
    main_run argv { env with comment_limit := some s } fetch =
      main_run argv { env with comment_limit := none } fetch := by
  have hp : parseCommentLimit (some s) = none := by
    by_cases h0 : pyTruthyStr s
    · simp [parseCommentLimit, h0, hs]
    · simp [parseCommentLimit, h0]
  apply main_run_limit_congr
  · rfl
  · rfl
  · rfl
  · rfl
  · show collectComments (parseCommentLimit (some s)) =
      collectComments (parseCommentLimit none)
    rw [hp]
    rfl

/-- Witness for `nonnumeric_limit_ignored` at the value `"abc"`. -/
theorem nonnumeric_limit_ignored_witness :
    pyIntParse "abc" = none ∧
    main_run ["prog", "url"] { envDemo with comment_limit := some "abc" } fetchDemo =
      main_run ["prog", "url"] { envDemo with comment_limit := none } fetchDemo :=
  ⟨by decide, nonnumeric_limit_ignored "abc" (by decide) ["prog", "url"] envDemo fetchDemo⟩

/-- C7: the comment-limit value `"0"` parses to `0`, which Python's truthiness
treats as falsy: the program behaves exactly as with no limit, and every
comment with a truthy body is rendered and included. -/
theorem zero_limit_no_limit (argv : List String) (env : ProcEnv)
    (fetch : String → String → String → Except Unit SubmissionData)
    (cs : List CommentNode) :
    main_run argv { env with comment_limit := some "0" } fetch =
      main_run argv { env with comment_limit := none } fetch ∧
    collectComments (some 0) cs =
      (cs.filter (fun c => pyTruthyOpt c.body)).map render_comment := by
  have hz : collectComments (some 0) = collectComments none := by
    funext l
    exact collectLoop_zero l []
  constructor
  · apply main_run_limit_congr
    · rfl
    · rfl
    · rfl
    · rfl
    · show collectComments (parseCommentLimit (some "0")) =
        collectComments (parseCommentLimit none)
      have hp : parseCommentLimit (some "0") = some 0 := by decide
      rw [hp]
      exact hz
  · rw [hz, collectComments, collectLoop_none cs []]
    simp

/-- C8: a missing URL argument or a missing/empty credential value exits with
status 1 and writes nothing to standard output. -/
theorem missing_arg_or_creds_exit1 (argv : List String) (env : ProcEnv)
    (fetch : String → String → String → Except Unit SubmissionData)
    (h : argv.length < 2 ∨ pyTruthyOpt env.client_id = false ∨
         pyTruthyOpt env.client_secret = false) :
    main_run argv env fetch = ⟨1, ""⟩ := by
  unfold main_run
  by_cases h2 : argv.length < 2
  · rw [if_pos h2]
  · rw [if_neg h2]
    rcases h with h | h | h
    · exact absurd h h2
    · rw [if_pos (by simp [h])]
    · rw [if_pos (by simp [h])]

/-- Witness for `missing_arg_or_creds_exit1` with no URL argument. -/
theorem missing_arg_witness :
    (["prog"] : List String).length < 2 ∧
    main_run ["prog"] envDemo fetchDemo = ⟨1, ""⟩ :=
  ⟨by decide, missing_arg_or_creds_exit1 ["prog"] envDemo fetchDemo (Or.inl (by decide))⟩

/-- C9: a failing external fetch terminates the run with status 1 and an empty
standard output; in general a run's stdout is all-or-nothing — empty, or the
single full payload line. -/
theorem fetch_failure_all_or_nothing (argv : List String) (env : ProcEnv)
    (fetch : String → String → String → Except Unit SubmissionData) (e : Unit)
    (hf : fetch (argv.getD 1 "") (env.user_agent.getD "twx-reddit/0.1")
            (env.comment_sort.getD "confidence") = Except.error e) :
    ((main_run argv env fetch).exitCode = 1 ∧ (main_run argv env fetch).stdout = "") ∧
    ∀ fetch2 : String → String → String → Except Unit SubmissionData,
      (main_run argv env fetch2).stdout = "" ∨
      ∃ sd : SubmissionData,
        (main_run argv env fetch2).stdout =
          String.mk (serializeJ (mainPayload env sd) ++ ['\n']) := by
  constructor
  · unfold main_run
    split_ifs with h1 h2
    · exact ⟨rfl, rfl⟩
    · exact ⟨rfl, rfl⟩
    · rw [hf]
      exact ⟨rfl, rfl⟩
  · intro fetch2
    unfold main_run
    split_ifs with h1 h2
    · exact Or.inl rfl
    · exact Or.inl rfl
    · cases hf2 : fetch2 (argv.getD 1 "") (env.user_agent.getD "twx-reddit/0.1")
          (env.comment_sort.getD "confidence") with
      | error e2 => exact Or.inl rfl
      | ok sd => exact Or.inr ⟨sd, rfl⟩

/-- Witness for `fetch_failure_all_or_nothing` with an always-failing client. -/
theorem fetch_failure_witness :
    (main_run ["prog", "url"] envDemo (fun _ _ _ => Except.error ())).exitCode = 1 ∧
    (main_run ["prog", "url"] envDemo (fun _ _ _ => Except.error ())).stdout = "" :=
  (fetch_failure_all_or_nothing ["prog", "url"] envDemo
    (fun _ _ _ => Except.error ()) () rfl).1

/-- C2: on the success path the program prints exactly one line — the JSON
serialization of the payload followed by a newline, with no newline inside —
and the payload is one object whose keys are exactly `title`, `selftext`,
`comments`, `permalink`, `score`, `subreddit`, `author`, `comment_count`,
with string/array-of-string/integer values as stated and `author` null
exactly when the submission has no author. -/
theorem success_single_json_line (argv : List String) (env : ProcEnv)
    (sd : SubmissionData)
    (fetch : String → String → String → Except Unit SubmissionData)
    (h1 : 2 ≤ argv.length)
    (h2 : pyTruthyOpt env.client_id = true)
    (h3 : pyTruthyOpt env.client_secret = true)
    (h4 : fetch (argv.getD 1 "") (env.user_agent.getD "twx-reddit/0.1")
            (env.comment_sort.getD "confidence") = Except.ok sd) :
    main_run argv env fetch =
      ⟨0, String.mk (serializeJ (mainPayload env sd) ++ ['\n'])⟩ ∧
    '\n' ∉ serializeJ (mainPayload env sd) ∧
    jsonKeys (mainPayload env sd) =
      ["title", "selftext", "comments", "permalink", "score", "subreddit",
       "author", "comment_count"] ∧
    ∃ aj : JVal, ∃ t st pl sub : String, ∃ sc cc : Int, ∃ cms : List String,
      mainPayload env sd = JVal.jobj
        [("title", JVal.jstr t), ("selftext", JVal.jstr st),
         ("comments", JVal.jarr (cms.map JVal.jstr)),
         ("permalink", JVal.jstr pl), ("score", JVal.jint sc),
         ("subreddit", JVal.jstr sub), ("author", aj),
         ("comment_count", JVal.jint cc)] ∧
      (aj = JVal.jnull ↔ sd.author = none) ∧
      ∀ a : String, sd.author = some a → aj = JVal.jstr a := by
  refine ⟨?_, nl_not_mem_serialize_buildPayload sd _, rfl, ?_⟩
  · unfold main_run
    rw [if_neg (by omega), if_neg (by simp [h2, h3]), h4]
    rfl
  · rcases ha : sd.author with _ | a
    · refine ⟨JVal.jnull, pyOrEmpty sd.title, pyOrEmpty sd.selftext, sd.permalink,
        sd.subreddit, sd.score, sd.num_comments,
        collectComments (parseCommentLimit env.comment_limit) sd.commentsList,
        ?_, by simp [ha], ?_⟩
      · unfold mainPayload buildPayload
        rw [ha]
      · intro a hc
        exact Option.noConfusion hc
    · refine ⟨JVal.jstr a, pyOrEmpty sd.title, pyOrEmpty sd.selftext, sd.permalink,
        sd.subreddit, sd.score, sd.num_comments,
        collectComments (parseCommentLimit env.comment_limit) sd.commentsList,
        ?_, by simp [ha], ?_⟩
      · unfold mainPayload buildPayload
        rw [ha]
      · intro a2 hc
        injection hc with hca
        rw [hca]

/-- Witness for `success_single_json_line` on the demo run. -/
theorem success_single_json_line_witness :
    pyTruthyOpt envDemo.client_id = true ∧
    main_run ["prog", "url"] envDemo fetchDemo =
      ⟨0, String.mk (serializeJ (mainPayload envDemo sdDemo) ++ ['\n'])⟩ :=
  ⟨by decide,
   (success_single_json_line ["prog", "url"] envDemo sdDemo fetchDemo
      (by decide) (by decide) (by decide) rfl).1⟩
